import Mathlib

/-
Verification of the Check-Assistant browser extension's coordination logic.

The development shallowly embeds the repository's TypeScript sources:
  - `src/src/shared/types.ts` (data model, message protocol, constants),
  - `src/src/content/index.ts` (content-script visit detector),
  - the message-listener wrapper documented in `src/docs/messaging.md`.
The background service worker (site matcher, visit recorder, reminder
scheduler, router handlers) is not part of the repository snapshot; those
pieces are modelled from the specification and are marked as such in their
doc comments.

JavaScript strings are embedded as Lean `String`; `String.prototype.startsWith`
is embedded as `strBegins` (character-sequence prefix test).  Timestamps
(`Date.now()` values) are embedded as `Nat`, and the local-day projection of a
timestamp is an arbitrary function `dayOf : Nat → Nat`.
-/

/-- Embedding of JavaScript `s.startsWith(p)`: `p`'s characters are a prefix
of `s`'s characters. -/
def strBegins (s p : String) : Bool := p.data.isPrefixOf s.data

/-- Modelled from the spec: URL normalization used by the background Site
Matcher ("strip trailing slash"); the matcher implementation is not under
`src/`. -/
def normalizeUrl (u : String) : String :=
  if u.data.getLast? = some '/' then ⟨u.data.dropLast⟩ else u

/-- `Site` from `src/src/shared/types.ts`.  `visitCount` is a TS `number`
holding an integer count, embedded as `Int` so that non-negativity is a real
statement. -/
structure Site where
  id : String
  url : String
  title : String
  favicon : Option String := none
  notes : Option String := none
  tags : Option (List String) := none
  createdAt : Nat
  lastVisitedAt : Option Nat := none
  visitCount : Int
deriving Repr, DecidableEq

/-- `theme` field values of `Settings` from `src/src/shared/types.ts`. -/
inductive Theme where
  | light
  | dark
  | system
deriving Repr, DecidableEq

/-- `ReminderConfig` from `src/src/shared/types.ts`. -/
structure ReminderConfig where
  enabled : Bool
  times : List String
deriving Repr, DecidableEq

/-- `Settings` from `src/src/shared/types.ts`. -/
structure Settings where
  theme : Theme
  reminder : ReminderConfig
  autoDetectVisits : Bool
  notificationsEnabled : Bool
deriving Repr, DecidableEq

/-- `DEFAULT_SETTINGS` from `src/src/shared/types.ts`. -/
def DEFAULT_SETTINGS : Settings :=
  { theme := Theme.system
    reminder :=
      { enabled := false
        times := ["09:00"] }
    autoDetectVisits := false
    notificationsEnabled := true }

/-- `MessageType` from `src/src/shared/types.ts`: the closed union of request
type strings, one constructor per union member, in source order. -/
inductive MessageType where
  | SAVE_SITE
  | GET_SITES
  | UPDATE_SITE
  | DELETE_SITE
  | MARK_VISITED
  | MARK_CHECKED_IN
  | SITE_VISITED
  | CHECK_URL_MATCH
  | GET_SETTINGS
  | UPDATE_SETTINGS
  | CLEAR_ALL_SITES
  | RESET_ALL_STATUS
  | NOTIFICATION_ACTION
  | OPEN_POPUP
deriving Repr, DecidableEq, Fintype

/-- The wire string of each `MessageType` union member, exactly as written in
`src/src/shared/types.ts`. -/
def MessageType.toWire : MessageType → String
  | MessageType.SAVE_SITE => "SAVE_SITE"
  | MessageType.GET_SITES => "GET_SITES"
  | MessageType.UPDATE_SITE => "UPDATE_SITE"
  | MessageType.DELETE_SITE => "DELETE_SITE"
  | MessageType.MARK_VISITED => "MARK_VISITED"
  | MessageType.MARK_CHECKED_IN => "MARK_CHECKED_IN"
  | MessageType.SITE_VISITED => "SITE_VISITED"
  | MessageType.CHECK_URL_MATCH => "CHECK_URL_MATCH"
  | MessageType.GET_SETTINGS => "GET_SETTINGS"
  | MessageType.UPDATE_SETTINGS => "UPDATE_SETTINGS"
  | MessageType.CLEAR_ALL_SITES => "CLEAR_ALL_SITES"
  | MessageType.RESET_ALL_STATUS => "RESET_ALL_STATUS"
  | MessageType.NOTIFICATION_ACTION => "NOTIFICATION_ACTION"
  | MessageType.OPEN_POPUP => "OPEN_POPUP"

/-- The enumeration of request type strings as the specification lists them
(spec section 6, "Enumerated request types"); to be compared with the
`MessageType` union embedded from the source. -/
def specMessageTypes : List String :=
  ["GET_SITES", "SAVE_SITE", "UPDATE_SITE", "DELETE_SITE", "MARK_VISITED",
   "MARK_CHECKED_IN", "SITE_VISITED", "CHECK_URL_MATCH", "GET_SETTINGS",
   "UPDATE_SETTINGS", "CLEAR_ALL_SITES", "RESET_ALL_STATUS",
   "NOTIFICATION_ACTION", "OPEN_POPUP"]

/-- `MessageResponse` from `src/src/shared/types.ts`: the uniform response
envelope `{ success, data?, error? }`. -/
structure MessageResponse (D : Type) where
  success : Bool
  data : Option D := none
  error : Option String := none
deriving Repr, DecidableEq

/-- `UrlMatchResult` from `src/src/shared/types.ts`. -/
structure UrlMatchResult where
  matched : Bool
  siteId : Option String := none
  siteName : Option String := none
  alreadyVisitedToday : Option Bool := none
deriving Repr, DecidableEq

/-- `ALARM_NAMES.DAILY_REMINDER_PREFIX` from `src/src/shared/types.ts`: the
name head carried by every per-reminder-time alarm. -/
def reminderAlarmNameHead : String := "reminder-"

/-- `ALARM_NAMES.DAILY_RESET` from `src/src/shared/types.ts`. -/
def dailyResetAlarmName : String := "daily-reset"

/-- Outcome of one background handler body: either a result value or a thrown
error message.  Used to state error-containment of the router boundary. -/
inductive HandlerOutcome (D : Type) where
  | ok (data : D)
  | err (msg : String)
deriving Repr, DecidableEq

/-- Modelled from the spec: the per-handler boundary of the background Message
Router (not under `src/`; `src/docs/messaging.md` documents the pattern):
a successful body becomes `{success:true, data}`, a thrown error becomes
`{success:false, error:message}`. -/
def handleMessage {D : Type} (o : HandlerOutcome D) : MessageResponse D :=
  match o with
  | HandlerOutcome.ok d => { success := true, data := some d }
  | HandlerOutcome.err m => { success := false, error := some m }

/-- The `chrome.runtime.onMessage.addListener` wrapper from
`src/docs/messaging.md`: the handler promise either resolves with a response
(forwarded by `sendResponse`) or rejects (the `catch` sends
`{success:false, error:message}`).  The returned list collects every call to
`sendResponse` for the request. -/
def onMessageListener {D : Type} (p : Except String (MessageResponse D)) :
    List (MessageResponse D) :=
  match p with
  | Except.ok r => [r]
  | Except.error e => [{ success := false, error := some e }]

/-- Modelled from the spec: whether a site counts as already visited on the
local day of `now`, computed from `lastVisitedAt` (the background matcher is
not under `src/`). -/
def visitedToday (dayOf : Nat → Nat) (s : Site) (now : Nat) : Bool :=
  match s.lastVisitedAt with
  | some t => decide (dayOf t = dayOf now)
  | none => false

/-- Modelled from the spec: the first saved site whose normalized URL equals
the normalized candidate URL ("first match wins, tie-break is insertion
order"). -/
def firstMatch (sites : List Site) (url : String) : Option Site :=
  match sites with
  | [] => none
  | s :: rest =>
    if normalizeUrl s.url = normalizeUrl url then some s else firstMatch rest url

/-- Modelled from the spec: the background Site Matcher's
`match(url) -> {matched, siteId?, siteName?, alreadyVisitedToday?}` (not under
`src/`): non-http(s) schemes are rejected before matching, otherwise the first
normalized-equal saved site wins and `alreadyVisitedToday` is derived from its
`lastVisitedAt`. -/
def matchUrl (dayOf : Nat → Nat) (sites : List Site) (url : String) (now : Nat) :
    UrlMatchResult :=
  if strBegins url "http://" = false ∧ strBegins url "https://" = false then
    { matched := false }
  else
    match firstMatch sites url with
    | none => { matched := false }
    | some s =>
      { matched := true
        siteId := some s.id
        siteName := some s.title
        alreadyVisitedToday := some (visitedToday dayOf s now) }

/-- Modelled from the spec: the Visit Recorder's update of one site record,
written as a single composite write ("visitCount and lastVisitedAt updated
together"). -/
def updateVisit (s : Site) (ts : Nat) : Site :=
  { s with visitCount := s.visitCount + 1, lastVisitedAt := some ts }

/-- Modelled from the spec: the background handling of `SITE_VISITED` (not
under `src/`): re-run the match and apply the visit to the first matching
site; a race-safe no-op when no site matches. -/
def recordVisit (sites : List Site) (url : String) (ts : Nat) : List Site :=
  match sites with
  | [] => []
  | s :: rest =>
    if normalizeUrl s.url = normalizeUrl url then updateVisit s ts :: rest
    else s :: recordVisit rest url ts

/-- One visit-recording operation against a single site record: `manual`
embeds the `MARK_VISITED` / `MARK_CHECKED_IN` path, `auto` embeds the
`SITE_VISITED` path, whose `matchedStill` flag is false when the site vanished
between check and write (race-safe no-op). -/
inductive VisitOp where
  | manual (ts : Nat)
  | auto (matchedStill : Bool) (ts : Nat)
deriving Repr, DecidableEq

/-- The timestamp carried by a visit operation. -/
def VisitOp.ts : VisitOp → Nat
  | VisitOp.manual t => t
  | VisitOp.auto _ t => t

/-- Modelled from the spec: effect of one `MARK_VISITED`/`MARK_CHECKED_IN`/
`SITE_VISITED` operation on a site record (the background Visit Recorder is
not under `src/`). -/
def applyVisitOp (s : Site) (op : VisitOp) : Site :=
  match op with
  | VisitOp.manual t => updateVisit s t
  | VisitOp.auto true t => updateVisit s t
  | VisitOp.auto false _ => s

/-- Folding a sequence of visit operations over a site record. -/
def applyVisitOps (s : Site) (ops : List VisitOp) : Site :=
  match ops with
  | [] => s
  | op :: rest => applyVisitOps (applyVisitOp s op) rest

/-- Modelled from the spec: the Reminder Scheduler's reconcile step (not under
`src/`): cancel every alarm whose name carries the reminder name head, then,
if `reminder.enabled`, create one alarm per configured `HH:MM` time. -/
def reconcileAlarms (st : Settings) (alarms : List String) : List String :=
  (alarms.filter fun a => !(strBegins a reminderAlarmNameHead)) ++
    (if st.reminder.enabled then
       st.reminder.times.map (fun t => reminderAlarmNameHead ++ t)
     else [])

/-- Module-level mutable state of the content script
(`src/src/content/index.ts`): `hasNotifiedVisit` and `lastProcessedUrl`. -/
structure CState where
  hasNotifiedVisit : Bool
  lastProcessedUrl : String
deriving Repr, DecidableEq

/-- A message the content script sends to the background worker during one
detector run. -/
inductive SentMsg where
  | checkUrlMatch (url : String)
  | siteVisited (url : String) (title : String) (timestamp : Nat)
deriving Repr, DecidableEq

/-- Outcome of one `chrome.runtime.sendMessage` call as observed by the
content script: the call either threw (extension context invalidated) or
returned a possibly-absent response envelope. -/
inductive ChannelOutcome (T : Type) where
  | threw (e : String)
  | returned (resp : Option (MessageResponse T))
deriving Repr, DecidableEq

/-- `sendMessage` from `src/src/content/index.ts`: returns `response.data`
when the response exists and has `success` truthy; returns null (`none`) when
the response is absent or unsuccessful, or when the channel threw (the
`catch` branch). -/
def sendMessage {T : Type} (c : ChannelOutcome T) : Option T :=
  match c with
  | ChannelOutcome.threw _ => none
  | ChannelOutcome.returned none => none
  | ChannelOutcome.returned (some r) => if r.success then r.data else none

/-- `processVisit` from `src/src/content/index.ts`.  `matchResult` is the
value of `sendMessage({type:'CHECK_URL_MATCH', ...})` (null on any messaging
failure).  Returns the updated module state together with the messages sent
during the run, in order. -/
def processVisit (st : CState) (currentUrl pageTitle : String) (now : Nat)
    (matchResult : Option UrlMatchResult) : CState × List SentMsg :=
  if st.hasNotifiedVisit = true ∧ currentUrl = st.lastProcessedUrl then
    (st, [])
  else if strBegins currentUrl "http://" = false ∧
      strBegins currentUrl "https://" = false then
    (st, [])
  else
    let st1 : CState := { st with lastProcessedUrl := currentUrl }
    match matchResult with
    | none => (st1, [SentMsg.checkUrlMatch currentUrl])
    | some r =>
      if r.matched = false then (st1, [SentMsg.checkUrlMatch currentUrl])
      else if r.alreadyVisitedToday = some true then
        ({ st1 with hasNotifiedVisit := true }, [SentMsg.checkUrlMatch currentUrl])
      else
        ({ st1 with hasNotifiedVisit := true },
          [SentMsg.checkUrlMatch currentUrl,
           SentMsg.siteVisited currentUrl
             (if pageTitle = "" then currentUrl else pageTitle) now])

/-- Combined state of the content script and the background store. -/
structure World where
  cs : CState
  sites : List Site
deriving Repr, DecidableEq

/-- Background handling of the messages of one detector run: each
`SITE_VISITED` message is applied to the store by the recorder;
`CHECK_URL_MATCH` is a pure read. -/
def applyMsgs (sites : List Site) (msgs : List SentMsg) : List Site :=
  match msgs with
  | [] => sites
  | SentMsg.siteVisited u _ ts :: rest => applyMsgs (recordVisit sites u ts) rest
  | SentMsg.checkUrlMatch _ :: rest => applyMsgs sites rest

/-- One complete detector run (`processVisit`) against the modelled
background: the `CHECK_URL_MATCH` response is computed by `matchUrl` over the
current store, and each sent `SITE_VISITED` is recorded. -/
def visitStep (dayOf : Nat → Nat) (w : World) (url title : String) (ts : Nat) :
    World × List SentMsg :=
  let r := matchUrl dayOf w.sites url ts
  let p := processVisit w.cs url title ts (some r)
  ({ cs := p.1, sites := applyMsgs w.sites p.2 }, p.2)

/-- A detector-run trigger from `src/src/content/index.ts`: the initial page
load, an SPA navigation (`handleUrlChange`), or a visibility change
(`handleVisibilityChange`). -/
inductive RunEvent where
  | initialLoad (url title : String) (ts : Nat)
  | urlChange (url title : String) (ts : Nat)
  | visibilityChange (url title : String) (ts : Nat)
deriving Repr, DecidableEq

/-- The current URL at a detector-run trigger. -/
def RunEvent.url : RunEvent → String
  | RunEvent.initialLoad u _ _ => u
  | RunEvent.urlChange u _ _ => u
  | RunEvent.visibilityChange u _ _ => u

/-- The timestamp of a detector-run trigger. -/
def RunEvent.ts : RunEvent → Nat
  | RunEvent.initialLoad _ _ t => t
  | RunEvent.urlChange _ _ t => t
  | RunEvent.visibilityChange _ _ t => t

/-- One detector-run trigger applied to the combined state.  `initialLoad`
and `visibilityChange` call `processVisit` directly; `urlChange`
(`handleUrlChange`) first resets `hasNotifiedVisit` when the URL differs from
`lastProcessedUrl`, and does nothing otherwise. -/
def stepEvent (dayOf : Nat → Nat) (w : World) (e : RunEvent) :
    World × List SentMsg :=
  match e with
  | RunEvent.initialLoad url title ts => visitStep dayOf w url title ts
  | RunEvent.visibilityChange url title ts => visitStep dayOf w url title ts
  | RunEvent.urlChange url title ts =>
    if url = w.cs.lastProcessedUrl then (w, [])
    else
      visitStep dayOf { w with cs := { w.cs with hasNotifiedVisit := false } }
        url title ts

/-- A sequence of detector runs, collecting all sent messages in order. -/
def runTrace (dayOf : Nat → Nat) (w : World) :
    List RunEvent → World × List SentMsg
  | [] => (w, [])
  | e :: es =>
    let p := stepEvent dayOf w e
    let q := runTrace dayOf p.1 es
    (q.1, p.2 ++ q.2)

/-- Whether a sent message is a `SITE_VISITED` notification for URL `u`. -/
def isVisitFor (u : String) (m : SentMsg) : Bool :=
  match m with
  | SentMsg.siteVisited v _ _ => decide (v = u)
  | SentMsg.checkUrlMatch _ => false

/-- Number of `SITE_VISITED` messages for URL `u` in a message list. -/
def countVisits (msgs : List SentMsg) (u : String) : Nat :=
  (msgs.filter (isVisitFor u)).length

/-- The store records a visit to the first site matching `u` on local day
`d`: the matched site's `lastVisitedAt` falls on day `d`. -/
def visitedInDay (dayOf : Nat → Nat) (d : Nat) (sites : List Site) (u : String) :
    Prop :=
  ∃ s, firstMatch sites u = some s ∧ ∃ t, s.lastVisitedAt = some t ∧ dayOf t = d

/-- Helper: a string extended from `p` begins with `p`. -/
theorem strBegins_append (p t : String) : strBegins (p ++ t) p = true := by
  unfold strBegins
  rw [String.data_append]
  induction p.data with
  | nil => simp [List.isPrefixOf]
  | cons a as ih => simp [List.isPrefixOf, ih]

/-- C10: The default Settings record, materialized when none is persisted, is
exactly `{theme:'system', reminder:{enabled:false, times:['09:00']},
autoDetectVisits:false, notificationsEnabled:true}`. -/
theorem default_settings_values :
    DEFAULT_SETTINGS =
      { theme := Theme.system
        reminder := { enabled := false, times := ["09:00"] }
        autoDetectVisits := false
        notificationsEnabled := true } ∧
    DEFAULT_SETTINGS.theme = Theme.system ∧
    DEFAULT_SETTINGS.reminder.enabled = false ∧
    DEFAULT_SETTINGS.reminder.times = ["09:00"] ∧
    DEFAULT_SETTINGS.autoDetectVisits = false ∧
    DEFAULT_SETTINGS.notificationsEnabled = true :=
  ⟨rfl, rfl, rfl, rfl, rfl, rfl⟩

/-- C8: The message protocol's request types are exactly the closed
14-element enumeration listed by the spec: the `MessageType` union has 14
members, their wire strings are exactly the spec's list (injectively), and no
other string is a member. -/
theorem messageType_closed_enum :
    Fintype.card MessageType = 14 ∧
    specMessageTypes.length = 14 ∧
    specMessageTypes.Nodup ∧
    (∀ m : MessageType, MessageType.toWire m ∈ specMessageTypes) ∧
    (∀ s ∈ specMessageTypes, ∃ m : MessageType, MessageType.toWire m = s) ∧
    (∀ m m' : MessageType, MessageType.toWire m = MessageType.toWire m' → m = m') := by
  decide

/-- C9: The content script's `sendMessage` is total over the message channel:
it returns the response's `data` exactly when the response exists with
`success:true`, and `none` (null) whenever the channel threw, the response is
absent, or `success` is false; being a total function, it never throws. -/
theorem sendMessage_total (T : Type) (c : ChannelOutcome T) :
    ((∃ r, c = ChannelOutcome.returned (some r) ∧ r.success = true ∧
        sendMessage c = r.data) ∨ sendMessage c = none) ∧
    (∀ e, c = ChannelOutcome.threw e → sendMessage c = none) ∧
    (c = ChannelOutcome.returned none → sendMessage c = none) ∧
    (∀ r, c = ChannelOutcome.returned (some r) → r.success = false →
      sendMessage c = none) := by
  cases c with
  | threw e =>
    exact ⟨Or.inr rfl, fun _ _ => rfl, fun h => (nomatch h), fun r h => (nomatch h)⟩
  | returned resp =>
    cases resp with
    | none =>
      exact ⟨Or.inr rfl, fun e h => (nomatch h), fun _ => rfl, fun r h => (nomatch h)⟩
    | some r =>
      cases hr : r.success with
      | false =>
        refine ⟨Or.inr ?_, fun e h => (nomatch h), fun h => (nomatch h),
          fun r' h hf => ?_⟩
        · simp [sendMessage, hr]
        · simp [sendMessage, hr]
      | true =>
        refine ⟨Or.inl ⟨r, rfl, hr, by simp [sendMessage, hr]⟩,
          fun e h => (nomatch h), fun h => (nomatch h), fun r' h hf => ?_⟩
        injection h with h1
        injection h1 with h2
        subst h2
        rw [hr] at hf
        simp at hf

/-- C9 witness: a thrown channel error yields `none`. -/
theorem sendMessage_total_witness :
    sendMessage (ChannelOutcome.threw "context invalidated" : ChannelOutcome Nat) = none :=
  (sendMessage_total Nat (ChannelOutcome.threw "context invalidated")).2.1
    "context invalidated" rfl

/-- C1: The router boundary never lets an exception escape: for every inbound
message the listener delivers exactly one response, and any handler failure
(a rejected handler promise or a handler body that threw) becomes
`{success:false, error:<message>}`. -/
theorem router_error_containment (D : Type)
    (p : Except String (HandlerOutcome D)) :
    (onMessageListener (p.map handleMessage)).length = 1 ∧
    ∀ m : String,
      (p = Except.error m ∨ p = Except.ok (HandlerOutcome.err m)) →
      onMessageListener (p.map handleMessage) =
        [{ success := false, data := none, error := some m }] := by
  cases p with
  | error e =>
    refine ⟨rfl, fun m h => ?_⟩
    rcases h with h | h
    · injection h with h1
      subst h1
      rfl
    · cases h
  | ok o =>
    refine ⟨rfl, fun m h => ?_⟩
    rcases h with h | h
    · cases h
    · injection h with h1
      subst h1
      rfl

/-- C1 witness: a rejected handler promise becomes a single
`{success:false, error:"boom"}` response. -/
theorem router_error_containment_witness :
    (onMessageListener
        ((Except.error "boom" : Except String (HandlerOutcome Nat)).map
          handleMessage)).length = 1 ∧
    onMessageListener
        ((Except.error "boom" : Except String (HandlerOutcome Nat)).map
          handleMessage) =
      [{ success := false, data := none, error := some "boom" }] :=
  ⟨(router_error_containment Nat (Except.error "boom")).1,
   (router_error_containment Nat (Except.error "boom")).2 "boom" (Or.inl rfl)⟩

/-- C7: Every response envelope delivered by the router boundary has exactly
one meaningful field, discriminated by `success`: on `success:true` the
`error` field is absent, on `success:false` the `data` field is absent. -/
theorem response_envelope_exclusive (D : Type)
    (p : Except String (HandlerOutcome D)) (r : MessageResponse D)
    (hr : r ∈ onMessageListener (p.map handleMessage)) :
    (r.success = true → r.error = none) ∧ (r.success = false → r.data = none) := by
  cases p with
  | error e =>
    simp [onMessageListener, Except.map] at hr
    subst hr
    exact ⟨fun h => (nomatch h), fun _ => rfl⟩
  | ok o =>
    simp [onMessageListener, Except.map] at hr
    subst hr
    cases o with
    | ok d => exact ⟨fun _ => rfl, fun h => (nomatch h)⟩
    | err m => exact ⟨fun h => (nomatch h), fun _ => rfl⟩

/-- C7 witness: the success envelope for data `7` carries no error. -/
theorem response_envelope_exclusive_witness :
    (({ success := true, data := some 7, error := none } : MessageResponse Nat).success = true →
      ({ success := true, data := some 7, error := none } : MessageResponse Nat).error = none) ∧
    (({ success := true, data := some 7, error := none } : MessageResponse Nat).success = false →
      ({ success := true, data := some 7, error := none } : MessageResponse Nat).data = none) :=
  response_envelope_exclusive Nat (Except.ok (HandlerOutcome.ok 7))
    { success := true, data := some 7, error := none } (by decide)

/-- C2: A URL whose scheme is not http(s) is never matched and never
recorded: the matcher returns `matched:false` unconditionally, and
`processVisit` returns, leaving the state unchanged, before sending any
message. -/
theorem nonHttp_never_matched (url : String) (dayOf : Nat → Nat)
    (sites : List Site) (now : Nat) (st : CState) (title : String) (ts : Nat)
    (resp : Option UrlMatchResult)
    (h1 : strBegins url "http://" = false)
    (h2 : strBegins url "https://" = false) :
    matchUrl dayOf sites url now = { matched := false } ∧
    processVisit st url title ts resp = (st, []) := by
  constructor
  · unfold matchUrl
    rw [if_pos ⟨h1, h2⟩]
  · unfold processVisit
    by_cases hg : st.hasNotifiedVisit = true ∧ url = st.lastProcessedUrl
    · rw [if_pos hg]
    · rw [if_neg hg, if_pos ⟨h1, h2⟩]

/-- C2 witness: a `file://` URL is neither matched nor processed. -/
theorem nonHttp_never_matched_witness :
    matchUrl (fun t => t / 86400000) [] "file:///etc/hosts" 0 = { matched := false } ∧
    processVisit ⟨false, ""⟩ "file:///etc/hosts" "Hosts" 0 none = (⟨false, ""⟩, []) :=
  nonHttp_never_matched "file:///etc/hosts" (fun t => t / 86400000) [] 0
    ⟨false, ""⟩ "Hosts" 0 none (by decide) (by decide)

/-- Helper: the messages of one `processVisit` run are nothing, a lone
`CHECK_URL_MATCH`, or a `CHECK_URL_MATCH` followed by one `SITE_VISITED`, the
latter only when the match response was present with `matched:true` and
`alreadyVisitedToday` not true. -/
theorem processVisit_shape (st : CState) (url title : String) (ts : Nat)
    (resp : Option UrlMatchResult) :
    (processVisit st url title ts resp).2 = [] ∨
    (processVisit st url title ts resp).2 = [SentMsg.checkUrlMatch url] ∨
    ((processVisit st url title ts resp).2 =
      [SentMsg.checkUrlMatch url,
       SentMsg.siteVisited url (if title = "" then url else title) ts] ∧
      ∃ r, resp = some r ∧ r.matched = true ∧ r.alreadyVisitedToday ≠ some true) := by
  by_cases hg1 : st.hasNotifiedVisit = true ∧ url = st.lastProcessedUrl
  · left
    simp [processVisit, hg1]
  · by_cases hg2 : strBegins url "http://" = false ∧ strBegins url "https://" = false
    · left
      simp [processVisit, hg1, hg2]
    · cases resp with
      | none =>
        right; left
        simp [processVisit, hg1, hg2]
      | some r =>
        by_cases hm : r.matched = false
        · right; left
          simp [processVisit, hg1, hg2, hm]
        · by_cases ha : r.alreadyVisitedToday = some true
          · right; left
            simp [processVisit, hg1, hg2, hm, ha]
          · right; right
            have hm' : r.matched = true := by
              cases hb : r.matched
              · exact absurd hb hm
              · rfl
            constructor
            · simp [processVisit, hg1, hg2, hm, ha]
            · exact ⟨r, rfl, hm', ha⟩

/-- C3: A `SITE_VISITED` message is sent in a detector run only for the
current URL, only alongside a `CHECK_URL_MATCH` for that URL whose response
was present with `matched:true` and `alreadyVisitedToday` not true; when the
match response is absent, unmatched, or already-visited, no `SITE_VISITED` is
sent in that run. -/
theorem siteVisited_requires_match (st : CState) (url title : String)
    (ts : Nat) (resp : Option UrlMatchResult) :
    (∀ u t k, SentMsg.siteVisited u t k ∈ (processVisit st url title ts resp).2 →
      u = url ∧ k = ts ∧
      SentMsg.checkUrlMatch url ∈ (processVisit st url title ts resp).2 ∧
      ∃ r, resp = some r ∧ r.matched = true ∧ r.alreadyVisitedToday ≠ some true) ∧
    ((resp = none ∨ ∃ r, resp = some r ∧
        (r.matched = false ∨ r.alreadyVisitedToday = some true)) →
      ∀ u t k, SentMsg.siteVisited u t k ∉ (processVisit st url title ts resp).2) := by
  constructor
  · intro u t k h
    rcases processVisit_shape st url title ts resp with h0 | h1 | ⟨h2, r, hr, hm, ha⟩
    · rw [h0] at h
      simp at h
    · rw [h1] at h
      simp at h
    · rw [h2] at h
      simp only [List.mem_cons, List.mem_singleton] at h
      rcases h with h | h | h
      · cases h
      · obtain ⟨hu, -, hk⟩ := SentMsg.siteVisited.inj h
        exact ⟨hu, hk, by rw [h2]; exact List.mem_cons_self _ _, r, hr, hm, ha⟩
      · cases h
  · intro hbad u t k h
    rcases processVisit_shape st url title ts resp with h0 | h1 | ⟨h2, r, hr, hm, ha⟩
    · rw [h0] at h
      simp at h
    · rw [h1] at h
      simp at h
    · rcases hbad with hn | ⟨r', hr', hcase⟩
      · rw [hn] at hr
        cases hr
      · rw [hr'] at hr
        injection hr with he
        subst he
        rcases hcase with hc | hc
        · rw [hm] at hc
          cases hc
        · exact ha hc

/-- C3 witness: with a present `matched:true`, not-yet-visited response, the
emitted `SITE_VISITED` is for the checked URL and both messages are sent. -/
theorem siteVisited_requires_match_witness :
    ("https://a.example/" : String) = "https://a.example/" ∧ (5 : Nat) = 5 ∧
    SentMsg.checkUrlMatch "https://a.example/" ∈
      (processVisit ⟨false, ""⟩ "https://a.example/" "A" 5
        (some ⟨true, some "1", some "A", some false⟩)).2 ∧
    ∃ r, (some ⟨true, some "1", some "A", some false⟩ : Option UrlMatchResult) = some r ∧
      r.matched = true ∧ r.alreadyVisitedToday ≠ some true :=
  (siteVisited_requires_match ⟨false, ""⟩ "https://a.example/" "A" 5
    (some ⟨true, some "1", some "A", some false⟩)).1
    "https://a.example/" "A" 5 (by decide)

/-- C5: Across any sequence of `MARK_VISITED`/`MARK_CHECKED_IN`/`SITE_VISITED`
operations applied with non-decreasing clock timestamps, a site's
`visitCount` is monotonically non-decreasing and never negative, and its
`lastVisitedAt` is non-decreasing once set. -/
theorem visitCount_monotone (s : Site) (ops : List VisitOp)
    (h0 : 0 ≤ s.visitCount)
    (hsorted : List.Pairwise (fun a b => a.ts ≤ b.ts) ops)
    (hstart : ∀ t0, s.lastVisitedAt = some t0 → ∀ op ∈ ops, t0 ≤ op.ts) :
    s.visitCount ≤ (applyVisitOps s ops).visitCount ∧
    0 ≤ (applyVisitOps s ops).visitCount ∧
    (∀ t0, s.lastVisitedAt = some t0 →
      ∃ t1, (applyVisitOps s ops).lastVisitedAt = some t1 ∧ t0 ≤ t1) := by
  induction ops generalizing s with
  | nil => exact ⟨le_refl _, h0, fun t0 h => ⟨t0, h, le_refl t0⟩⟩
  | cons op rest ih =>
    have hstep_count : s.visitCount ≤ (applyVisitOp s op).visitCount := by
      cases op with
      | manual t =>
        simp only [applyVisitOp, updateVisit]
        omega
      | auto b t =>
        cases b with
        | false => exact le_refl _
        | true =>
          simp only [applyVisitOp, updateVisit]
          omega
    have h0' : 0 ≤ (applyVisitOp s op).visitCount := le_trans h0 hstep_count
    have hpc := List.pairwise_cons.mp hsorted
    have hstart' : ∀ t0, (applyVisitOp s op).lastVisitedAt = some t0 →
        ∀ op' ∈ rest, t0 ≤ op'.ts := by
      intro t0 h op' hop'
      cases op with
      | manual t =>
        simp only [applyVisitOp, updateVisit] at h
        injection h with h1
        subst h1
        exact hpc.1 op' hop'
      | auto b t =>
        cases b with
        | false =>
          exact hstart t0 h op' (List.mem_cons_of_mem _ hop')
        | true =>
          simp only [applyVisitOp, updateVisit] at h
          injection h with h1
          subst h1
          exact hpc.1 op' hop'
    obtain ⟨ih1, ih2, ih3⟩ := ih (applyVisitOp s op) h0' hpc.2 hstart'
    have heq : applyVisitOps s (op :: rest) = applyVisitOps (applyVisitOp s op) rest := rfl
    rw [heq]
    refine ⟨le_trans hstep_count ih1, ih2, ?_⟩
    intro t0 h
    cases op with
    | manual t =>
      have hle : t0 ≤ t := hstart t0 h (VisitOp.manual t) (List.mem_cons_self _ _)
      obtain ⟨t1, ht1, h1le⟩ := ih3 t rfl
      exact ⟨t1, ht1, le_trans hle h1le⟩
    | auto b t =>
      cases b with
      | false => exact ih3 t0 h
      | true =>
        have hle : t0 ≤ t := hstart t0 h (VisitOp.auto true t) (List.mem_cons_self _ _)
        obtain ⟨t1, ht1, h1le⟩ := ih3 t rfl
        exact ⟨t1, ht1, le_trans hle h1le⟩

/-- C5 witness: a fresh site taken through one manual and one auto visit. -/
theorem visitCount_monotone_witness :
    (⟨"1", "https://a.example/", "A", none, none, none, 0, none, 0⟩ : Site).visitCount ≤
      (applyVisitOps ⟨"1", "https://a.example/", "A", none, none, none, 0, none, 0⟩
        [VisitOp.manual 10, VisitOp.auto true 20]).visitCount ∧
    0 ≤ (applyVisitOps ⟨"1", "https://a.example/", "A", none, none, none, 0, none, 0⟩
        [VisitOp.manual 10, VisitOp.auto true 20]).visitCount ∧
    (∀ t0, (⟨"1", "https://a.example/", "A", none, none, none, 0, none, 0⟩ : Site).lastVisitedAt = some t0 →
      ∃ t1, (applyVisitOps ⟨"1", "https://a.example/", "A", none, none, none, 0, none, 0⟩
          [VisitOp.manual 10, VisitOp.auto true 20]).lastVisitedAt = some t1 ∧
        t0 ≤ t1) :=
  visitCount_monotone
    ⟨"1", "https://a.example/", "A", none, none, none, 0, none, 0⟩
    [VisitOp.manual 10, VisitOp.auto true 20]
    (by decide) (by decide) (fun t0 h => (nomatch h))

/-- C6: The scheduler's reconcile step first cancels every reminder-named
alarm, then creates exactly one alarm per configured `HH:MM` time when and
only when `reminder.enabled` is true; with `reminder.enabled` false, zero
reminder-named alarms remain. -/
theorem scheduler_reconcile_alarms (st : Settings) (alarms : List String) :
    ((reconcileAlarms st alarms).filter fun a => strBegins a reminderAlarmNameHead) =
      (if st.reminder.enabled then
         st.reminder.times.map (fun t => reminderAlarmNameHead ++ t)
       else []) ∧
    (st.reminder.enabled = false →
      ((reconcileAlarms st alarms).filter fun a => strBegins a reminderAlarmNameHead) = []) := by
  have h1 : ((alarms.filter fun a => !(strBegins a reminderAlarmNameHead)).filter
      fun a => strBegins a reminderAlarmNameHead) = [] := by
    induction alarms with
    | nil => rfl
    | cons a rest ih =>
      cases hb : strBegins a reminderAlarmNameHead with
      | false => simp [List.filter_cons, hb, ih]
      | true => simp [List.filter_cons, hb, ih]
  have h2 : ((st.reminder.times.map fun t => reminderAlarmNameHead ++ t).filter
      fun a => strBegins a reminderAlarmNameHead) =
      st.reminder.times.map fun t => reminderAlarmNameHead ++ t := by
    rw [List.filter_eq_self]
    intro a ha
    obtain ⟨t, -, rfl⟩ := List.mem_map.mp ha
    exact strBegins_append reminderAlarmNameHead t
  have hmain : ((reconcileAlarms st alarms).filter
      fun a => strBegins a reminderAlarmNameHead) =
      (if st.reminder.enabled then
         st.reminder.times.map (fun t => reminderAlarmNameHead ++ t)
       else []) := by
    unfold reconcileAlarms
    rw [List.filter_append, h1, List.nil_append]
    cases hb : st.reminder.enabled with
    | false => simp [hb]
    | true => simp [hb, h2]
  exact ⟨hmain, fun hfalse => by rw [hmain, hfalse]; rfl⟩

/-- C6 witness: with reminders disabled, reconciliation leaves zero
reminder-named alarms even if one was registered. -/
theorem scheduler_reconcile_alarms_witness :
    ((reconcileAlarms DEFAULT_SETTINGS ["reminder-09:00", "daily-reset"]).filter
      fun a => strBegins a reminderAlarmNameHead) = [] :=
  (scheduler_reconcile_alarms DEFAULT_SETTINGS ["reminder-09:00", "daily-reset"]).2 rfl

/-- Helper: recording a visit for `url` updates exactly the first site
matching `url`. -/
theorem firstMatch_recordVisit_self (sites : List Site) (url : String)
    (ts : Nat) (s : Site) (h : firstMatch sites url = some s) :
    firstMatch (recordVisit sites url ts) url = some (updateVisit s ts) := by
  induction sites with
  | nil => exact (nomatch h)
  | cons s0 rest ih =>
    by_cases hp : normalizeUrl s0.url = normalizeUrl url
    · simp only [firstMatch] at h
      rw [if_pos hp] at h
      injection h with h1
      subst h1
      simp only [recordVisit]
      rw [if_pos hp]
      simp only [firstMatch]
      rw [if_pos (show normalizeUrl (updateVisit s0 ts).url = normalizeUrl url from hp)]
    · simp only [firstMatch] at h
      rw [if_neg hp] at h
      simp only [recordVisit]
      rw [if_neg hp]
      simp only [firstMatch]
      rw [if_neg hp]
      exact ih h

/-- Helper: recording a visit for any URL either leaves the first match for
`u` unchanged or replaces it by its own visit-updated record. -/
theorem firstMatch_recordVisit (sites : List Site) (u uu : String) (ts : Nat) :
    firstMatch (recordVisit sites uu ts) u = firstMatch sites u ∨
    ∃ s, firstMatch sites u = some s ∧
      firstMatch (recordVisit sites uu ts) u = some (updateVisit s ts) := by
  induction sites with
  | nil => left; rfl
  | cons s0 rest ih =>
    by_cases hpu : normalizeUrl s0.url = normalizeUrl uu
    · by_cases hp : normalizeUrl s0.url = normalizeUrl u
      · right
        refine ⟨s0, ?_, ?_⟩
        · simp only [firstMatch]
          rw [if_pos hp]
        · simp only [recordVisit]
          rw [if_pos hpu]
          simp only [firstMatch]
          rw [if_pos (show normalizeUrl (updateVisit s0 ts).url = normalizeUrl u from hp)]
      · left
        simp only [recordVisit]
        rw [if_pos hpu]
        simp only [firstMatch]
        rw [if_neg (show ¬normalizeUrl (updateVisit s0 ts).url = normalizeUrl u from hp),
          if_neg hp]
    · simp only [recordVisit]
      rw [if_neg hpu]
      by_cases hp : normalizeUrl s0.url = normalizeUrl u
      · left
        simp only [firstMatch]
        rw [if_pos hp, if_pos hp]
      · simp only [firstMatch]
        rw [if_neg hp, if_neg hp]
        exact ih

/-- Helper: a same-day recorded visit (for any URL) preserves the fact that
`u`'s matched site was visited on day `d`. -/
theorem visitedInDay_recordVisit (dayOf : Nat → Nat) (d : Nat)
    (sites : List Site) (u uu : String) (ts : Nat)
    (h : visitedInDay dayOf d sites u) (hts : dayOf ts = d) :
    visitedInDay dayOf d (recordVisit sites uu ts) u := by
  obtain ⟨s, hfm, t, ht, hd⟩ := h
  rcases firstMatch_recordVisit sites u uu ts with he | ⟨s2, hfm2, he⟩
  · exact ⟨s, by rw [he, hfm], t, ht, hd⟩
  · rw [hfm] at hfm2
    injection hfm2 with h2
    subst h2
    exact ⟨updateVisit s ts, he, ts, rfl, hts⟩

/-- Helper: recording a visit for `u` on day `d` establishes that `u`'s
matched site was visited on day `d`. -/
theorem visitedInDay_recordVisit_self (dayOf : Nat → Nat) (d : Nat)
    (sites : List Site) (u : String) (ts : Nat) (s : Site)
    (h : firstMatch sites u = some s) (hts : dayOf ts = d) :
    visitedInDay dayOf d (recordVisit sites u ts) u :=
  ⟨updateVisit s ts, firstMatch_recordVisit_self sites u ts s h, ts, rfl, hts⟩

/-- Helper: a matched `matchUrl` result comes from a first-matching site and
reports that site's visited-today flag. -/
theorem matchUrl_matched (dayOf : Nat → Nat) (sites : List Site) (u : String)
    (now : Nat) (h : (matchUrl dayOf sites u now).matched = true) :
    ∃ s, firstMatch sites u = some s ∧
      (matchUrl dayOf sites u now).alreadyVisitedToday =
        some (visitedToday dayOf s now) := by
  by_cases hh : strBegins u "http://" = false ∧ strBegins u "https://" = false
  · unfold matchUrl at h
    rw [if_pos hh] at h
    simp at h
  · unfold matchUrl at h ⊢
    rw [if_neg hh] at h ⊢
    cases hfm : firstMatch sites u with
    | none =>
      rw [hfm] at h
      simp at h
    | some s => exact ⟨s, rfl, rfl⟩

/-- Helper: once `u`'s matched site was visited on day `d`, any same-day
matched check reports `alreadyVisitedToday = some true`. -/
theorem matchUrl_avt_of_visitedInDay (dayOf : Nat → Nat) (d : Nat)
    (sites : List Site) (u : String) (now : Nat)
    (hv : visitedInDay dayOf d sites u) (hnow : dayOf now = d)
    (hm : (matchUrl dayOf sites u now).matched = true) :
    (matchUrl dayOf sites u now).alreadyVisitedToday = some true := by
  obtain ⟨s, hfm, t, ht, hd⟩ := hv
  obtain ⟨s2, hfm2, havt⟩ := matchUrl_matched dayOf sites u now hm
  rw [hfm] at hfm2
  injection hfm2 with h2
  subst h2
  rw [havt]
  have hvt : visitedToday dayOf s now = true := by
    unfold visitedToday
    rw [ht]
    simp [hd, hnow]
  rw [hvt]

/-- Helper: the outcomes of one full detector run (`visitStep`): no message,
a lone unmatched check, or a check followed by one `SITE_VISITED`, the latter
requiring a matched, not-yet-visited response and recording the visit. -/
theorem visitStep_shape (dayOf : Nat → Nat) (w : World) (url title : String)
    (ts : Nat) :
    ((visitStep dayOf w url title ts).2 = [] ∧
      (visitStep dayOf w url title ts).1.sites = w.sites) ∨
    ((visitStep dayOf w url title ts).2 = [SentMsg.checkUrlMatch url] ∧
      (visitStep dayOf w url title ts).1.sites = w.sites) ∨
    ((visitStep dayOf w url title ts).2 =
        [SentMsg.checkUrlMatch url,
         SentMsg.siteVisited url (if title = "" then url else title) ts] ∧
      (matchUrl dayOf w.sites url ts).matched = true ∧
      (matchUrl dayOf w.sites url ts).alreadyVisitedToday ≠ some true ∧
      (visitStep dayOf w url title ts).1.sites = recordVisit w.sites url ts) := by
  rcases processVisit_shape w.cs url title ts (some (matchUrl dayOf w.sites url ts))
    with h | h | ⟨h, r, hr, hm, ha⟩
  · left
    refine ⟨h, ?_⟩
    show applyMsgs w.sites
      (processVisit w.cs url title ts (some (matchUrl dayOf w.sites url ts))).2 = w.sites
    rw [h]
    rfl
  · right; left
    refine ⟨h, ?_⟩
    show applyMsgs w.sites
      (processVisit w.cs url title ts (some (matchUrl dayOf w.sites url ts))).2 = w.sites
    rw [h]
    rfl
  · right; right
    injection hr with h1
    subst h1
    refine ⟨h, hm, ha, ?_⟩
    show applyMsgs w.sites
      (processVisit w.cs url title ts (some (matchUrl dayOf w.sites url ts))).2 =
      recordVisit w.sites url ts
    rw [h]
    rfl

/-- Helper: the outcomes of one detector-run trigger, lifted from
`visitStep_shape` to `stepEvent` (the `urlChange` trigger may also do
nothing when the URL is unchanged). -/
theorem stepEvent_shape (dayOf : Nat → Nat) (w : World) (e : RunEvent) :
    ((stepEvent dayOf w e).2 = [] ∧ (stepEvent dayOf w e).1.sites = w.sites) ∨
    ((stepEvent dayOf w e).2 = [SentMsg.checkUrlMatch e.url] ∧
      (stepEvent dayOf w e).1.sites = w.sites) ∨
    (∃ t2, (stepEvent dayOf w e).2 =
        [SentMsg.checkUrlMatch e.url, SentMsg.siteVisited e.url t2 e.ts] ∧
      (matchUrl dayOf w.sites e.url e.ts).matched = true ∧
      (matchUrl dayOf w.sites e.url e.ts).alreadyVisitedToday ≠ some true ∧
      (stepEvent dayOf w e).1.sites = recordVisit w.sites e.url e.ts) := by
  cases e with
  | initialLoad url title ts =>
    rcases visitStep_shape dayOf w url title ts with ⟨h1, h2⟩ | ⟨h1, h2⟩ | ⟨h1, hm, ha, h2⟩
    · exact Or.inl ⟨h1, h2⟩
    · exact Or.inr (Or.inl ⟨h1, h2⟩)
    · exact Or.inr (Or.inr ⟨_, h1, hm, ha, h2⟩)
  | visibilityChange url title ts =>
    rcases visitStep_shape dayOf w url title ts with ⟨h1, h2⟩ | ⟨h1, h2⟩ | ⟨h1, hm, ha, h2⟩
    · exact Or.inl ⟨h1, h2⟩
    · exact Or.inr (Or.inl ⟨h1, h2⟩)
    · exact Or.inr (Or.inr ⟨_, h1, hm, ha, h2⟩)
  | urlChange url title ts =>
    by_cases hu : url = w.cs.lastProcessedUrl
    · left
      have hse : stepEvent dayOf w (RunEvent.urlChange url title ts) = (w, []) := by
        simp [stepEvent, hu]
      rw [hse]
      exact ⟨rfl, rfl⟩
    · have hse : stepEvent dayOf w (RunEvent.urlChange url title ts) =
          visitStep dayOf { w with cs := { w.cs with hasNotifiedVisit := false } }
            url title ts := by
        simp [stepEvent, hu]
      rw [hse]
      rcases visitStep_shape dayOf
          { w with cs := { w.cs with hasNotifiedVisit := false } } url title ts
        with ⟨h1, h2⟩ | ⟨h1, h2⟩ | ⟨h1, hm, ha, h2⟩
      · exact Or.inl ⟨h1, h2⟩
      · exact Or.inr (Or.inl ⟨h1, h2⟩)
      · exact Or.inr (Or.inr ⟨_, h1, hm, ha, h2⟩)

/-- Helper: splitting the visit count over list append. -/
theorem countVisits_append (ms1 ms2 : List SentMsg) (u : String) :
    countVisits (ms1 ++ ms2) u = countVisits ms1 u + countVisits ms2 u := by
  simp [countVisits, List.filter_append]

/-- Helper: visit count of the two-message run output. -/
theorem countVisits_pair (url t2 : String) (ts : Nat) (u : String) :
    countVisits [SentMsg.checkUrlMatch url, SentMsg.siteVisited url t2 ts] u =
      if url = u then 1 else 0 := by
  by_cases h : url = u
  · simp [countVisits, List.filter_cons, isVisitFor, h]
  · simp [countVisits, List.filter_cons, isVisitFor, h]

/-- Helper: a single detector run emits at most one `SITE_VISITED` for any
URL. -/
theorem stepEvent_count_le (dayOf : Nat → Nat) (w : World) (e : RunEvent)
    (u : String) : countVisits (stepEvent dayOf w e).2 u ≤ 1 := by
  rcases stepEvent_shape dayOf w e with ⟨h1, -⟩ | ⟨h1, -⟩ | ⟨t2, h1, -, -, -⟩ <;> rw [h1]
  · exact Nat.zero_le 1
  · simp [countVisits, List.filter_cons, isVisitFor]
  · rw [countVisits_pair]
    by_cases h : e.url = u
    · rw [if_pos h]
    · rw [if_neg h]
      exact Nat.zero_le 1

/-- Helper: if a run emits a `SITE_VISITED` for `u` on day `d`, the resulting
store records `u` as visited on day `d`. -/
theorem stepEvent_emit (dayOf : Nat → Nat) (d : Nat) (w : World) (e : RunEvent)
    (u : String) (hd : dayOf e.ts = d)
    (hc : 1 ≤ countVisits (stepEvent dayOf w e).2 u) :
    visitedInDay dayOf d (stepEvent dayOf w e).1.sites u := by
  rcases stepEvent_shape dayOf w e with ⟨h1, -⟩ | ⟨h1, -⟩ | ⟨t2, h1, hm, -, h2⟩
  · rw [h1] at hc
    exact absurd hc (by simp [countVisits])
  · rw [h1] at hc
    exact absurd hc (by simp [countVisits, List.filter_cons, isVisitFor])
  · rw [h1, countVisits_pair] at hc
    by_cases hu : e.url = u
    · subst hu
      obtain ⟨s, hfm, -⟩ := matchUrl_matched dayOf w.sites e.url e.ts hm
      rw [h2]
      exact visitedInDay_recordVisit_self dayOf d w.sites e.url e.ts s hfm hd
    · rw [if_neg hu] at hc
      exact absurd hc (by simp)

/-- Helper: a same-day run preserves the visited-on-day-`d` fact for `u`. -/
theorem stepEvent_preserve (dayOf : Nat → Nat) (d : Nat) (w : World)
    (e : RunEvent) (u : String) (hv : visitedInDay dayOf d w.sites u)
    (hd : dayOf e.ts = d) :
    visitedInDay dayOf d (stepEvent dayOf w e).1.sites u := by
  rcases stepEvent_shape dayOf w e with ⟨-, h2⟩ | ⟨-, h2⟩ | ⟨t2, -, -, -, h2⟩
  · rw [h2]; exact hv
  · rw [h2]; exact hv
  · rw [h2]
    exact visitedInDay_recordVisit dayOf d w.sites u e.url e.ts hv hd

/-- Helper: once `u` is recorded as visited on day `d`, a same-day run emits
no further `SITE_VISITED` for `u`. -/
theorem stepEvent_blocked (dayOf : Nat → Nat) (d : Nat) (w : World)
    (e : RunEvent) (u : String) (hv : visitedInDay dayOf d w.sites u)
    (hd : dayOf e.ts = d) :
    countVisits (stepEvent dayOf w e).2 u = 0 := by
  rcases stepEvent_shape dayOf w e with ⟨h1, -⟩ | ⟨h1, -⟩ | ⟨t2, h1, hm, ha, -⟩
  · rw [h1]; rfl
  · rw [h1]
    simp [countVisits, List.filter_cons, isVisitFor]
  · rw [h1, countVisits_pair]
    by_cases hu : e.url = u
    · subst hu
      exact absurd
        (matchUrl_avt_of_visitedInDay dayOf d w.sites e.url e.ts hv hd hm) ha
    · rw [if_neg hu]

/-- Helper: once `u` is recorded as visited on day `d`, a same-day trace
emits no `SITE_VISITED` for `u` and keeps the record. -/
theorem runTrace_blocked (dayOf : Nat → Nat) (d : Nat) (trace : List RunEvent)
    (w : World) (u : String)
    (hdays : ∀ e ∈ trace, dayOf e.ts = d)
    (hv : visitedInDay dayOf d w.sites u) :
    countVisits (runTrace dayOf w trace).2 u = 0 ∧
    visitedInDay dayOf d (runTrace dayOf w trace).1.sites u := by
  induction trace generalizing w with
  | nil => exact ⟨rfl, hv⟩
  | cons e es ih =>
    have hd : dayOf e.ts = d := hdays e (List.mem_cons_self _ _)
    have hds : ∀ e2 ∈ es, dayOf e2.ts = d :=
      fun e2 he2 => hdays e2 (List.mem_cons_of_mem _ he2)
    have hv1 := stepEvent_preserve dayOf d w e u hv hd
    have hb := stepEvent_blocked dayOf d w e u hv hd
    obtain ⟨ih1, ih2⟩ := ih (stepEvent dayOf w e).1 hds hv1
    constructor
    · show countVisits
        ((stepEvent dayOf w e).2 ++ (runTrace dayOf (stepEvent dayOf w e).1 es).2) u = 0
      rw [countVisits_append, hb, ih1]
    · exact ih2

/-- Helper: over any same-day trace of detector runs, at most one
`SITE_VISITED` is emitted per URL, from any starting state. -/
theorem runTrace_count_le (dayOf : Nat → Nat) (d : Nat) (trace : List RunEvent)
    (w : World) (u : String)
    (hdays : ∀ e ∈ trace, dayOf e.ts = d) :
    countVisits (runTrace dayOf w trace).2 u ≤ 1 := by
  induction trace generalizing w with
  | nil => exact Nat.zero_le 1
  | cons e es ih =>
    have hd : dayOf e.ts = d := hdays e (List.mem_cons_self _ _)
    have hds : ∀ e2 ∈ es, dayOf e2.ts = d :=
      fun e2 he2 => hdays e2 (List.mem_cons_of_mem _ he2)
    have hsplit : countVisits (runTrace dayOf w (e :: es)).2 u =
        countVisits (stepEvent dayOf w e).2 u +
          countVisits (runTrace dayOf (stepEvent dayOf w e).1 es).2 u := by
      show countVisits
        ((stepEvent dayOf w e).2 ++ (runTrace dayOf (stepEvent dayOf w e).1 es).2) u = _
      rw [countVisits_append]
    rw [hsplit]
    by_cases hzero : countVisits (stepEvent dayOf w e).2 u = 0
    · rw [hzero]
      have := ih (stepEvent dayOf w e).1 hds
      omega
    · have h1 : 1 ≤ countVisits (stepEvent dayOf w e).2 u :=
        Nat.one_le_iff_ne_zero.mpr hzero
      have hle := stepEvent_count_le dayOf w e u
      have hv1 := stepEvent_emit dayOf d w e u hd h1
      have hb := (runTrace_blocked dayOf d es (stepEvent dayOf w e).1 u hds hv1).1
      omega

/-- C4: Duplicate visit notifications are deduplicated by URL within a local
day: across any sequence of detector runs (initial load, SPA navigation,
visibility change) whose timestamps all fall on the same local day `d`, at
most one `SITE_VISITED` message is sent for any URL, the background recorder
applying each sent visit to the store. -/
theorem siteVisited_dedup_same_day (dayOf : Nat → Nat) (d : Nat)
    (sites0 : List Site) (trace : List RunEvent) (u : String)
    (hdays : ∀ e ∈ trace, dayOf e.ts = d) :
    countVisits (runTrace dayOf ⟨⟨false, ""⟩, sites0⟩ trace).2 u ≤ 1 :=
  runTrace_count_le dayOf d trace ⟨⟨false, ""⟩, sites0⟩ u hdays

/-- C4 witness: an initial load followed by a same-day visibility-change run
on the same saved URL yields at most one `SITE_VISITED`. -/
theorem siteVisited_dedup_same_day_witness :
    countVisits
      (runTrace (fun t => t / 100)
        ⟨⟨false, ""⟩, [⟨"1", "https://a.example/", "A", none, none, none, 0, none, 0⟩]⟩
        [RunEvent.initialLoad "https://a.example/" "A" 1,
         RunEvent.visibilityChange "https://a.example/" "A" 2]).2
      "https://a.example/" ≤ 1 :=
  siteVisited_dedup_same_day (fun t => t / 100) 0
    [⟨"1", "https://a.example/", "A", none, none, none, 0, none, 0⟩]
    [RunEvent.initialLoad "https://a.example/" "A" 1,
     RunEvent.visibilityChange "https://a.example/" "A" 2]
    "https://a.example/" (by decide)
